import Mathlib

/-!
Verification of the session state/log subsystem of the asreview repository
(`asreview/state/hdf5.py` and `asreview/state/base.py`).

The HDF5State class is embedded shallowly:
* a pandas DataFrame of results rows becomes a `List ResultRow`; column access
  `self.results[col]` becomes `st.results.map sel` for a field selector `sel`;
* Python exceptions become an explicit `Err` value: `ValueError ↦ Err.valueError`
  (the spec's ValidationError / ArgumentError), `TypeError ↦ Err.typeError`,
  `IndexError ↦ Err.indexError` (also the spec's LookupError, since a missing
  record id surfaces as `np.where(..)[0][0]` raising IndexError),
  `AttributeError ↦ Err.attributeError`, `KeyError ↦ Err.keyError`;
* functions that can raise return `Except Err _`, or `State × Option Err` when
  the caller must see the (possibly partially mutated) state left behind by a
  raised exception;
* numpy fancy indexing (negative-index wraparound, IndexError when out of
  bounds) is modelled by `npGetIndex` / `npGetIndices` / `npRangeIndex`.

Note on the storage backend: in this snapshot of the repository, `self.f` is a
`zipfile.ZipFile` (see `_create_new_state_file` and `_restore`), while several
methods still use the h5py API (`self.f['results']`, `self.f.attrs`,
`create_group`, `create_dataset`).  A `zipfile.ZipFile` supports neither
subscripting nor an `attrs` attribute, so those calls raise `TypeError`
respectively `AttributeError` at run time; the embedding records this where the
call actually decides behaviour (`_append_to_dataset`, `_add_as_data`,
`close`).
-/

deriving instance DecidableEq for Except

/-- Python exception classes raised by the state code. -/
inductive Err : Type where
  | valueError : Err
  | typeError : Err
  | indexError : Err
  | attributeError : Err
  | keyError : Err
deriving DecidableEq, Repr

/-- One row of the `results` table; the eight `RESULTS_TABLE_COLUMNS` of
`hdf5.py` become the eight fields. -/
structure ResultRow : Type where
  indices : Int
  labels : Int
  predictor_classifiers : String
  predictor_query_strategies : String
  predictor_balance_strategies : String
  predictor_feature_extraction : String
  predictor_training_sets : Int
  labeling_times : Int
deriving DecidableEq, Repr

/-- The cached `settings_metadata` dictionary (created by
`_create_new_state_file`); values are kept abstract as strings. -/
structure SettingsMetadata : Type where
  start_time : String
  end_time : String
  settings : String
  version : String
deriving DecidableEq, Repr

/-- One per-dataset-hash group under `/data_properties`, the container layout
that `_add_as_data`'s body is written to populate: each dataset or attribute
it names is an optional field.  (In this snapshot no such group is ever
created, because `_add_as_data` fails before its first container write; the
type is kept so the state records the container's group area.) -/
structure ASDataGroup : Type where
  record_table : Option (List Int)
  feature_matrix : Option (List (List Int))
  indptr : Option (List Int)
  indices : Option (List Int)
  shape : Option (Int × Int)
  data : Option (List Int)
  matrix_type : Option String
deriving DecidableEq, Repr

/-- Group with no datasets and no attributes, as produced by `create_group`. -/
def ASDataGroup.empty : ASDataGroup :=
  { record_table := none, feature_matrix := none, indptr := none,
    indices := none, shape := none, data := none, matrix_type := none }

/-- The in-memory state of an open `HDF5State`: read-only flag (from
`BaseState.__init__`), whether the zipfile handle is open, the cached
`settings_metadata`, the cached `results` table, the cached `record_table`,
and the `/data_properties` group (absent until first created). -/
structure HDF5State : Type where
  read_only : Bool
  f_open : Bool
  settings_metadata : SettingsMetadata
  results : List ResultRow
  record_table : List Int
  data_properties : Option (List (String × ASDataGroup))
deriving DecidableEq, Repr

/-- `LATEST_HDF5STATE_VERSION = "1.1"` from `hdf5.py`. -/
def LATEST_HDF5STATE_VERSION : String := "1.1"

/-- String subscription `s[i]`: the character at position `i`, IndexError when
out of range. -/
def strGet (s : String) (i : Nat) : Except Err Char :=
  match s.data.get? i with
  | some c => Except.ok c
  | none => Except.error Err.indexError

/-- `HDF5State._is_valid_version`: `self.version[0] == LATEST_HDF5STATE_VERSION[0]`
compares the first character of the two version strings. -/
def is_valid_version (version : String) : Except Err Bool := do
  let a ← strGet version 0
  let b ← strGet LATEST_HDF5STATE_VERSION 0
  pure (a == b)

/-- `HDF5State.n_records_labeled`: `len(self.results)`, the number of rows of
the results table. -/
def n_records_labeled (st : HDF5State) : Nat :=
  st.results.length

/-- `HDF5State.n_priors`:
`list(self.results['predictor_query_strategies']).count('prior')`, returning
`None` when the count is zero. -/
def n_priors (st : HDF5State) : Option Nat :=
  let n := (st.results.map (fun r => r.predictor_query_strategies)).count "prior"
  if n = 0 then none else some n

/-- `HDF5State.n_predictor_models`: drop the first `n_priors` entries of the
classifier column and of the stringified training-set column (Python `l[None:]`
is the whole list, hence `getD 0`), concatenate classifier and training set
into a model id, and count distinct ids plus one. -/
def n_predictor_models (st : HDF5State) : Nat :=
  let predictor_classifiers :=
    (st.results.map (fun r => r.predictor_classifiers)).drop ((n_priors st).getD 0)
  let predictor_training_sets :=
    ((st.results.map (fun r => r.predictor_training_sets)).map toString).drop
      ((n_priors st).getD 0)
  let model_ids := (predictor_classifiers.zip predictor_training_sets).map
    (fun p => p.1 ++ p.2)
  model_ids.dedup.length + 1

/-- `HDF5State._record_id_to_row_index`:
`np.where(self.record_table == record_id)[0][0]`, the first row position whose
record id matches, IndexError when there is none. -/
def record_id_to_row_index (record_table : List Int) (record_id : Int) :
    Except Err Nat :=
  if record_id ∈ record_table then Except.ok (record_table.indexOf record_id)
  else Except.error Err.indexError

/-- `HDF5State._row_index_to_record_id`:
`self.record_table.iloc[row_index].item()`, IndexError when out of bounds. -/
def row_index_to_record_id (record_table : List Int) (row_index : Nat) :
    Except Err Int :=
  match record_table.get? row_index with
  | some v => Except.ok v
  | none => Except.error Err.indexError

/-- Indexing a numpy array by a single Python int: negative indices wrap
around once, anything still out of bounds raises IndexError. -/
def npGetIndex (xs : List α) (i : Int) : Except Err α :=
  let j := if i < 0 then i + xs.length else i
  if h : 0 ≤ j ∧ j < (xs.length : Int) then
    Except.ok (xs.get ⟨j.toNat, by omega⟩)
  else Except.error Err.indexError

/-- Indexing a numpy array by a list of nonnegative positions, IndexError when
any position is out of bounds. -/
def npGetIndices (xs : List α) : List Nat → Except Err (List α)
  | [] => Except.ok []
  | i :: rest =>
    match xs.get? i with
    | none => Except.error Err.indexError
    | some x => (npGetIndices xs rest).map (fun ys => x :: ys)

/-- Indexing a numpy array by `range(n)`: the first `n` entries, IndexError when
`n` exceeds the length. -/
def npRangeIndex (xs : List α) (n : Nat) : Except Err (List α) :=
  if n ≤ xs.length then Except.ok (xs.take n) else Except.error Err.indexError

/-- `np.where(xs == v)[0]`: the positions at which the column equals `v`. -/
def whereEq (xs : List Int) (v : Int) : List Nat :=
  (List.range xs.length).filter (fun i => xs.get? i == some v)

/-- `HDF5State._get_dataset(results_column, query, record_id)` for the column
selected by `sel`.  Supplying both arguments raises ValueError; `query == 0`
builds `range(self.n_priors)` (`range(None)` raises TypeError when priors are
absent); any other query builds the singleton slice `[query + n_priors - 1]`
(`query + None - 1` raises TypeError); a record id is first translated to a row
index and then looked up in the `indices` column; with neither argument the
slice is `range(self.n_records_labeled)`. -/
def get_dataset {α : Type} (st : HDF5State) (sel : ResultRow → α)
    (query : Option Int) (record_id : Option Int) : Except Err (List α) :=
  let col := st.results.map sel
  match query, record_id with
  | some _, some _ => Except.error Err.valueError
  | some q, none =>
    if q = 0 then
      match n_priors st with
      | none => Except.error Err.typeError
      | some np => npRangeIndex col np
    else
      match n_priors st with
      | none => Except.error Err.typeError
      | some np => (npGetIndex col (q + np - 1)).map (fun v => [v])
  | none, some rid =>
    match record_id_to_row_index st.record_table rid with
    | Except.error e => Except.error e
    | Except.ok idx =>
      npGetIndices col (whereEq (st.results.map (fun r => r.indices)) (idx : Int))
  | none, none => npRangeIndex col (n_records_labeled st)

/-- `HDF5State.get_labels`: `self._get_dataset('labels', query, record_id)`. -/
def get_labels (st : HDF5State) (query : Option Int) (record_id : Option Int) :
    Except Err (List Int) :=
  get_dataset st (fun r => r.labels) query record_id

/-- `HDF5State.get_labeling_time` with `format='int'`: fetch the
`labeling_times` column slice, then for `query == 0` replace it by the single
entry `times[[self.n_priors - 1]]`. -/
def get_labeling_time (st : HDF5State) (query : Option Int)
    (record_id : Option Int) : Except Err (List Int) :=
  match get_dataset st (fun r => r.labeling_times) query record_id with
  | Except.error e => Except.error e
  | Except.ok times =>
    if query = some 0 then
      match n_priors st with
      | none => Except.error Err.typeError
      | some np => (npGetIndex times ((np : Int) - 1)).map (fun v => [v])
    else Except.ok times

/-- `HDF5State._append_to_dataset(dataset, values)`: the body first evaluates
`self.f['results']`, but `self.f` is a `zipfile.ZipFile`, which does not
support subscripting, so the call raises TypeError before touching any state. -/
def append_to_dataset {α : Type} (st : HDF5State) (_values : List α) :
    HDF5State × Option Err :=
  (st, some Err.typeError)

/-- Sequencing of the append calls in `add_labeling_data`: a raised exception
propagates, leaving behind whatever state the earlier calls produced. -/
def andThenAppend {α : Type} (r : HDF5State × Option Err) (values : List α) :
    HDF5State × Option Err :=
  match r with
  | (st, some e) => (st, some e)
  | (st, none) => append_to_dataset st values

/-- `HDF5State.add_labeling_data(record_ids, labels, models, methods,
training_sets, labeling_times)`: `_is_valid_state()` always passes here
because every `RESULTS_TABLE_COLUMNS` entry is a structural field of
`ResultRow`; then `len(set(lengths)) != 1` raises ValueError; then every record
id is translated to a row index (IndexError when unknown); then the six
`_append_to_dataset` calls run in order. -/
def add_labeling_data (st : HDF5State) (record_ids : List Int)
    (labels : List Int) (models : List String) (methods : List String)
    (training_sets : List Int) (labeling_times : List Int) :
    HDF5State × Option Err :=
  let lengths := [record_ids.length, labels.length, models.length,
                  methods.length, training_sets.length, labeling_times.length]
  if lengths.dedup.length ≠ 1 then
    (st, some Err.valueError)
  else
    match record_ids.mapM (record_id_to_row_index st.record_table) with
    | Except.error e => (st, some e)
    | Except.ok indices =>
      andThenAppend (andThenAppend (andThenAppend (andThenAppend (andThenAppend
        (append_to_dataset st indices)
        labels) models) methods) training_sets) labeling_times

/-- `HDF5State.close`: in write mode the body evaluates `self.f.attrs`, but
`self.f` is a `zipfile.ZipFile`, which has no attribute `attrs`, so the call
raises AttributeError before the handle is closed and before any metadata
changes; in read-only mode it only closes the handle. -/
def close (st : HDF5State) : HDF5State × Option Err :=
  if st.read_only = false then
    (st, some Err.attributeError)
  else
    ({ st with f_open := false }, none)

/-- A feature matrix handed to `_add_as_data`: either a dense `np.ndarray` or a
sparse `scipy` `csr_matrix` given by its decomposition. -/
inductive FeatureMatrix : Type where
  | ndarray : List (List Int) → FeatureMatrix
  | csr : List Int → List Int → List Int → Int × Int → FeatureMatrix
deriving DecidableEq, Repr

/-- `HDF5State._add_as_data(as_data, feature_matrix)`, with `as_data` passed as
its two used projections `record_table = as_data.record_ids` and
`data_hash = as_data.hash()`.  The body's first container operation is
`self.f["/data_properties"]` inside a `try/except KeyError`, but `self.f` is a
`zipfile.ZipFile`, which does not support subscripting, so that subscription
raises TypeError — which the `except KeyError` clause does not catch — before
any group, dataset or attribute is created: on every call the state is
returned unchanged with the error, and no entry for any hash is ever stored. -/
def add_as_data (st : HDF5State) (_data_hash : String)
    (_record_table : List Int) (_feature_matrix : Option FeatureMatrix) :
    HDF5State × Option Err :=
  (st, some Err.typeError)

/-- Modelled from the spec: the full component of a version string before the
first dot (its major version token), as a character list. -/
def spec_majorToken (v : String) : List Char :=
  v.data.takeWhile (fun c => c ≠ '.')

/-- Modelled from the spec: the length of the first contiguous run of rows
whose `predictor_query_strategies` is `"prior"` (the leading prior run). -/
def spec_leadingPriorRun (rows : List ResultRow) : Nat :=
  (rows.takeWhile (fun r => r.predictor_query_strategies == "prior")).length

/-- Modelled from the spec: the `(classifier, training set)` pairs of the rows
whose query strategy is not `"prior"` (the non-prior rows). -/
def spec_nonPriorPairs (rows : List ResultRow) : List (String × Int) :=
  (rows.filter (fun r => r.predictor_query_strategies ≠ "prior")).map
    (fun r => (r.predictor_classifiers, r.predictor_training_sets))

/-- Row constructor for concrete examples; the balance-strategy and
feature-extraction columns are fixed since no claim depends on them. -/
def mkRow (idx : Int) (lab : Int) (cls : String) (qs : String) (ts : Int)
    (t : Int) : ResultRow :=
  { indices := idx, labels := lab, predictor_classifiers := cls,
    predictor_query_strategies := qs, predictor_balance_strategies := "double",
    predictor_feature_extraction := "tfidf", predictor_training_sets := ts,
    labeling_times := t }

/-- State constructor for concrete examples. -/
def mkState (rows : List ResultRow) : HDF5State :=
  { read_only := true, f_open := true,
    settings_metadata :=
      { start_time := "t0", end_time := "", settings := "", version := "1.1" },
    results := rows, record_table := [11, 12, 13],
    data_properties := none }

/-- A state with a prior row after a non-prior row (priors not contiguous). -/
def stPriorGap : HDF5State := mkState
  [mkRow 0 1 "nb" "prior" 0 100, mkRow 1 0 "nb" "max" 2 200,
   mkRow 2 1 "nb" "prior" 3 300]

/-- A state whose two prior rows form a contiguous prefix. -/
def stPriorPrefix : HDF5State := mkState
  [mkRow 0 1 "nb" "prior" 0 100, mkRow 1 0 "nb" "prior" 0 150,
   mkRow 2 1 "nb" "max" 2 200]

/-- A state with no rows at all (fresh session). -/
def stNoRows : HDF5State := mkState []

/-- A state with one prior row and one model row, used for query slicing. -/
def stTwoRows : HDF5State := mkState
  [mkRow 0 7 "nb" "prior" 0 100, mkRow 1 9 "nb" "max" 1 200]

/-- A state with two non-prior rows whose (classifier, training set) pairs are
distinct but share the concatenation "a12" = "a" ++ "12" = "a1" ++ "2". -/
def stCollide : HDF5State := mkState
  [mkRow 0 1 "a" "max" 12 100, mkRow 1 0 "a1" "max" 2 200]

/-- A state with one prior row and two distinct models, collision-free. -/
def stThreeModels : HDF5State := mkState
  [mkRow 0 1 "nb" "prior" 0 100, mkRow 1 0 "nb" "max" 1 200,
   mkRow 2 1 "svm" "max" 2 300]

/- ### Helper lemmas -/

/-- If the dedup of a list is the singleton `[a]`, every element equals `a`. -/
lemma all_eq_of_dedup_singleton {α : Type} [DecidableEq α] {l : List α} {a : α}
    (h : l.dedup = [a]) : ∀ x ∈ l, x = a := by
  intro x hx
  have hm : x ∈ l.dedup := List.mem_dedup.mpr hx
  rw [h] at hm
  simpa using hm

/-- Counting a value in a mapped list counts the preimages. -/
lemma count_map_eq_countP {α β : Type} [BEq β] (f : α → β) (l : List α)
    (b : β) : (l.map f).count b = l.countP (fun x => f x == b) := by
  induction l with
  | nil => rfl
  | cons x xs ih => simp [List.count_cons, List.countP_cons, ih]

/-- When the prior rows form a contiguous leading block, the total number of
prior rows equals the length of that block. -/
lemma count_prior_eq_leading (rows : List ResultRow)
    (h : ∀ r ∈ rows.dropWhile (fun r => r.predictor_query_strategies == "prior"),
         r.predictor_query_strategies ≠ "prior") :
    (rows.map (fun r => r.predictor_query_strategies)).count "prior" =
      spec_leadingPriorRun rows := by
  have h1 : (rows.takeWhile (fun r => r.predictor_query_strategies == "prior")).countP
      (fun x => x.predictor_query_strategies == "prior") =
      (rows.takeWhile (fun r => r.predictor_query_strategies == "prior")).length := by
    apply List.countP_eq_length.mpr
    intro a ha
    simpa using List.mem_takeWhile_imp ha
  have h2 : (rows.dropWhile (fun r => r.predictor_query_strategies == "prior")).countP
      (fun x => x.predictor_query_strategies == "prior") = 0 := by
    apply List.countP_eq_zero.mpr
    intro a ha
    simpa using h a ha
  have key : (rows.takeWhile (fun r => r.predictor_query_strategies == "prior") ++
      rows.dropWhile (fun r => r.predictor_query_strategies == "prior")).countP
      (fun x => x.predictor_query_strategies == "prior") =
      (rows.takeWhile (fun r => r.predictor_query_strategies == "prior")).length := by
    rw [List.countP_append, h1, h2]
    omega
  rw [List.takeWhile_append_dropWhile] at key
  rw [count_map_eq_countP]
  unfold spec_leadingPriorRun
  exact key

/-- `n_priors` read through `getD 0` is the raw count of prior rows. -/
lemma n_priors_getD_eq_count (st : HDF5State) :
    (n_priors st).getD 0 =
      (st.results.map (fun r => r.predictor_query_strategies)).count "prior" := by
  unfold n_priors
  by_cases h0 :
      (st.results.map (fun r => r.predictor_query_strategies)).count "prior" = 0
  · simp [h0]
  · simp [h0]

/-- The number of priors never exceeds the number of rows. -/
lemma n_priors_le_length (st : HDF5State) (np : Nat)
    (h : n_priors st = some np) : np ≤ st.results.length := by
  have hc : (n_priors st).getD 0 = np := by rw [h]; rfl
  rw [n_priors_getD_eq_count] at hc
  calc np = (st.results.map (fun r => r.predictor_query_strategies)).count "prior" :=
        hc.symm
    _ ≤ (st.results.map (fun r => r.predictor_query_strategies)).length :=
        List.count_le_length _ _
    _ = st.results.length := by simp

/-- Shared computation of `_get_dataset` at `query == 0`: the first `n_priors`
entries of the column, TypeError when `n_priors` is `None`. -/
lemma get_dataset_query_zero {α : Type} (st : HDF5State) (sel : ResultRow → α) :
    get_dataset st sel (some 0) none =
      match n_priors st with
      | some np => Except.ok ((st.results.map sel).take np)
      | none => Except.error Err.typeError := by
  cases hnp : n_priors st with
  | none => simp [get_dataset, hnp]
  | some np =>
    have hle : np ≤ st.results.length := n_priors_le_length st np hnp
    simp [get_dataset, hnp, npRangeIndex, hle]


/- ### C1: appendLabelingAction rejects unequal-length inputs atomically -/

/-- C1: whenever the six input sequences of `add_labeling_data` do not all
have equal length, the call fails with ValueError (the spec's
ValidationError) and the state — hence `n_records_labeled` and every column —
is returned exactly as it was: no partial append happens. -/
theorem C1_unequal_lengths_rejected (st : HDF5State) (record_ids : List Int)
    (labels : List Int) (models : List String) (methods : List String)
    (training_sets : List Int) (labeling_times : List Int)
    (h : ¬ (labels.length = record_ids.length ∧
            models.length = record_ids.length ∧
            methods.length = record_ids.length ∧
            training_sets.length = record_ids.length ∧
            labeling_times.length = record_ids.length)) :
    add_labeling_data st record_ids labels models methods training_sets
      labeling_times = (st, some Err.valueError) := by
  have hd : [record_ids.length, labels.length, models.length, methods.length,
             training_sets.length, labeling_times.length].dedup.length ≠ 1 := by
    intro hc
    obtain ⟨a, ha⟩ := List.length_eq_one.mp hc
    have hall := all_eq_of_dedup_singleton ha
    have h0 := hall record_ids.length (by simp)
    have h1 := hall labels.length (by simp)
    have h2 := hall models.length (by simp)
    have h3 := hall methods.length (by simp)
    have h4 := hall training_sets.length (by simp)
    have h5 := hall labeling_times.length (by simp)
    exact h ⟨h1.trans h0.symm, h2.trans h0.symm, h3.trans h0.symm,
             h4.trans h0.symm, h5.trans h0.symm⟩
  simp [add_labeling_data, hd]

/-- C1 witness: a concrete call with a record id but no labels is rejected
with ValueError and returns the state unchanged. -/
theorem C1_unequal_lengths_rejected_witness :
    add_labeling_data stNoRows [1] [] [] [] [] [] =
      (stNoRows, some Err.valueError) := by
  apply C1_unequal_lengths_rejected
  decide

/- ### C5: version gate compares first characters, not major tokens -/

/-- C5 counterexample: document version "10.0" has major token "10", different
from the supported major token "1" of "1.1", yet `_is_valid_version` accepts
it, because it compares only `version[0]`. -/
theorem C5_counterexample :
    is_valid_version "10.0" = Except.ok true ∧
    spec_majorToken "10.0" ≠ spec_majorToken LATEST_HDF5STATE_VERSION := by
  decide

/-- C5 amended: `_is_valid_version` returns true iff the first character of
the document version equals `'1'`, the first character of the supported
version "1.1" — not iff the full major tokens agree; the empty version string
raises IndexError instead. -/
theorem C5_first_char_comparison (version : String) (c : Char)
    (cs : List Char) (h : version.data = c :: cs) :
    is_valid_version version = Except.ok (c == '1') := by
  simp only [is_valid_version, strGet, h, LATEST_HDF5STATE_VERSION]
  rfl

/-- C5 witness: applying the amended statement to version "10.0" shows it is
accepted even though its major token is "10". -/
theorem C5_first_char_comparison_witness :
    is_valid_version "10.0" = Except.ok true := by
  have h := C5_first_char_comparison "10.0" '1' ['0', '.', '0'] (by decide)
  have hb : (('1' : Char) == '1') = true := by decide
  rw [hb] at h
  exact h

/- ### C6: record id / row position roundtrip -/

/-- C6 counterexample: with the duplicate record table `[5, 5]`, row 1
translates to record id 5, which translates back to row 0, not 1. -/
theorem C6_counterexample :
    row_index_to_record_id [5, 5] 1 = Except.ok 5 ∧
    record_id_to_row_index [5, 5] 5 = Except.ok 0 ∧
    record_id_to_row_index [5, 5] 5 ≠ Except.ok 1 := by
  decide

/-- C6 amended: whenever the record identifiers are pairwise distinct (no
duplicates in the record table), translating a row position to its record id
and back yields the same position. -/
theorem C6_roundtrip_of_nodup (record_table : List Int) (i : Nat) (rid : Int)
    (hnd : record_table.Nodup)
    (h : row_index_to_record_id record_table i = Except.ok rid) :
    record_id_to_row_index record_table rid = Except.ok i := by
  unfold row_index_to_record_id at h
  cases hg : record_table.get? i with
  | none => rw [hg] at h; cases h
  | some v =>
    rw [hg] at h
    have hv : v = rid := by
      injection h
    subst hv
    obtain ⟨hi, hget⟩ := List.get?_eq_some.mp hg
    unfold record_id_to_row_index
    have hmem : v ∈ record_table := by
      rw [← hget]
      exact record_table.get_mem i hi
    rw [if_pos hmem]
    have hidx : record_table.indexOf v = i := by
      rw [← hget]
      exact List.get_indexOf hnd ⟨i, hi⟩
    rw [hidx]

/-- C6 witness: with the duplicate-free record table `[3, 7]`, row 1 round
trips through record id 7 back to row 1. -/
theorem C6_roundtrip_of_nodup_witness :
    record_id_to_row_index [3, 7] 7 = Except.ok 1 := by
  exact C6_roundtrip_of_nodup [3, 7] 1 7 (by decide) (by decide)

/- ### C9: close() on a writable session -/

/-- C9: evaluating `close` on a writable state and a read-only state.  The
claim (and the `BaseState.close` docstring) says a non-read-only close sets
`end_time` and releases the handle, but the code evaluates `self.f.attrs`
on a `zipfile.ZipFile`, which has no such attribute, so the call raises
AttributeError, the handle stays open and the metadata is untouched; only the
read-only close releases the handle, leaving the metadata unchanged. -/
theorem C9_close_eval :
    close { stNoRows with read_only := false } =
      ({ stNoRows with read_only := false }, some Err.attributeError) ∧
    ({ stNoRows with read_only := false }).f_open = true ∧
    close stNoRows = ({ stNoRows with f_open := false }, none) ∧
    ((close stNoRows).1).settings_metadata = stNoRows.settings_metadata := by
  decide

/- ### C2: n_priors counts all prior rows, not the leading run -/

/-- C2 counterexample: in a log whose query strategies are
`["prior", "max", "prior"]`, the leading prior run has length 1, but
`n_priors` returns 2, the total number of prior rows anywhere in the log. -/
theorem C2_counterexample :
    n_priors stPriorGap = some 2 ∧
    spec_leadingPriorRun stPriorGap.results = 1 ∧ (2 : Nat) ≠ 1 := by
  decide

/-- C2 amended: `n_priors` is `None` exactly when no prior-strategy rows
exist, and otherwise equals the total number of prior-strategy rows; this
total coincides with the length of the leading prior run whenever the prior
rows form a contiguous leading block (the intended log shape), but not in
general. -/
theorem C2_leading_run_when_contiguous (st : HDF5State)
    (h : ∀ r ∈ st.results.dropWhile
          (fun r => r.predictor_query_strategies == "prior"),
         r.predictor_query_strategies ≠ "prior") :
    n_priors st = if spec_leadingPriorRun st.results = 0 then none
                  else some (spec_leadingPriorRun st.results) := by
  have hc := count_prior_eq_leading st.results h
  unfold n_priors
  rw [hc]

/-- C2 witness: on a log with two leading priors followed by one model row,
the amended statement evaluates to `some 2`. -/
theorem C2_leading_run_when_contiguous_witness :
    n_priors stPriorPrefix = some 2 := by
  rw [C2_leading_run_when_contiguous stPriorPrefix (by decide)]
  decide

/- ### C4: getColumn at query == 0 -/

/-- C4 counterexample: on a log with no prior rows (`n_priors` unknown),
`_get_dataset` at `query == 0` raises TypeError (from `range(None)`) instead
of returning the empty slice. -/
theorem C4_counterexample :
    n_priors stNoRows = none ∧
    get_dataset stNoRows (fun r => r.labels) (some 0) none =
      Except.error Err.typeError ∧
    get_dataset stNoRows (fun r => r.labels) (some 0) none ≠ Except.ok [] := by
  decide

/-- C4 amended: for every column, `_get_dataset` at `query == 0` returns the
column slice over the first `n_priors` rows (the prior block when priors are
contiguous); when `n_priors` is unknown the call fails with TypeError rather
than returning the empty slice. -/
theorem C4_query_zero_slice {α : Type} (st : HDF5State) (sel : ResultRow → α) :
    get_dataset st sel (some 0) none =
      match n_priors st with
      | some np => Except.ok ((st.results.map sel).take np)
      | none => Except.error Err.typeError :=
  get_dataset_query_zero st sel

/- ### C8: negative queries are not rejected -/

/-- C8 counterexample: on a log with one prior row and one model row,
`_get_dataset` at `query == -1` returns the label of row
`-1 + n_priors - 1 = -1`, i.e. the last row, instead of failing with
ValueError (the spec's ArgumentError). -/
theorem C8_counterexample :
    get_dataset stTwoRows (fun r => r.labels) (some (-1)) none =
      Except.ok [9] ∧
    get_dataset stTwoRows (fun r => r.labels) (some (-1)) none ≠
      Except.error Err.valueError := by
  decide

/-- C8 amended: a negative query is not rejected with ValueError (the spec's
ArgumentError); like every nonzero query it selects the single position
`query + n_priors - 1` of the column under numpy indexing, so it returns data
whenever that (possibly wrapped-around negative) position is in range, and
IndexError otherwise. -/
theorem C8_negative_query {α : Type} (st : HDF5State) (sel : ResultRow → α)
    (q : Int) (hq : q < 0) (np : Nat) (hnp : n_priors st = some np) :
    get_dataset st sel (some q) none =
      (npGetIndex (st.results.map sel) (q + np - 1)).map (fun v => [v]) := by
  have h0 : ¬ q = 0 := by omega
  simp [get_dataset, h0, hnp]

/-- C8 witness: the amended statement at `query == -1` on the two-row log
evaluates to the last label, `9`. -/
theorem C8_negative_query_witness :
    (-1 : Int) < 0 ∧
    get_dataset stTwoRows (fun r => r.labels) (some (-1)) none =
      Except.ok [9] := by
  constructor
  · decide
  · rw [C8_negative_query stTwoRows (fun r => r.labels) (-1) (by decide) 1
      (by decide)]
    decide

/- ### C10: get_labeling_time at query == 0 returns one element -/

/-- Specialization of `get_dataset_query_zero` to a state with priors. -/
lemma get_dataset_query_zero_some {α : Type} (st : HDF5State)
    (sel : ResultRow → α) (np : Nat) (hnp : n_priors st = some np) :
    get_dataset st sel (some 0) none =
      Except.ok ((st.results.map sel).take np) := by
  have h := get_dataset_query_zero st sel
  rw [hnp] at h
  exact h

/-- `npGetIndex` at a nonnegative in-range position returns that entry. -/
lemma npGetIndex_eq_ok {α : Type} (xs : List α) (i : Int) (v : α) (h0 : 0 ≤ i)
    (hv : xs.get? i.toNat = some v) :
    npGetIndex xs i = Except.ok v := by
  obtain ⟨hlt, hget⟩ := List.get?_eq_some.mp hv
  have hni : ¬ i < 0 := by omega
  have hcond : 0 ≤ i ∧ i < (xs.length : Int) := by
    refine ⟨h0, ?_⟩
    omega
  simp only [npGetIndex, hni, if_false]
  rw [dif_pos hcond]
  rw [← hget]

/-- C10: on every state with a non-empty prior block (`n_priors = np ≥ 1`),
`get_labeling_time` at `query == 0` returns the one-element array holding
only the labeling time of row `np - 1` (the last prior row), while the other
column accessors — here `get_labels` — return the full prior-block slice of
length `np` for `query == 0`. -/
theorem C10_query_zero_last_prior_time (st : HDF5State) (np : Nat)
    (hnp : n_priors st = some np) (h1 : 1 ≤ np) :
    (∃ v, (st.results.map (fun r => r.labeling_times)).get? (np - 1) = some v ∧
        get_labeling_time st (some 0) none = Except.ok [v]) ∧
    get_labels st (some 0) none =
      Except.ok ((st.results.map (fun r => r.labels)).take np) := by
  have hle : np ≤ st.results.length := n_priors_le_length st np hnp
  constructor
  · have hlen : (st.results.map (fun r => r.labeling_times)).length =
        st.results.length := by simp
    have hlt : np - 1 < (st.results.map (fun r => r.labeling_times)).length := by
      omega
    obtain ⟨v, hv⟩ : ∃ v,
        (st.results.map (fun r => r.labeling_times)).get? (np - 1) = some v := by
      rw [List.get?_eq_get hlt]
      exact ⟨_, rfl⟩
    refine ⟨v, hv, ?_⟩
    have hok := get_dataset_query_zero_some st (fun r => r.labeling_times) np hnp
    have htake : ((st.results.map (fun r => r.labeling_times)).take np).get?
        ((np : Int) - 1).toNat = some v := by
      have hn : ((np : Int) - 1).toNat = np - 1 := by omega
      rw [hn, List.get?_take]
      · exact hv
      · omega
    have hidx := npGetIndex_eq_ok
      ((st.results.map (fun r => r.labeling_times)).take np)
      ((np : Int) - 1) v (by omega) htake
    unfold get_labeling_time
    rw [hok]
    simp [hnp, hidx]
    rfl
  · exact get_dataset_query_zero_some st (fun r => r.labels) np hnp

/-- C10 witness: on the log with priors at times 100 and 150 followed by a
model row at time 200, `get_labeling_time` at `query == 0` returns `[150]`
and `get_labels` returns both prior labels. -/
theorem C10_query_zero_last_prior_time_witness :
    get_labeling_time stPriorPrefix (some 0) none = Except.ok [150] ∧
    get_labels stPriorPrefix (some 0) none = Except.ok [1, 0] := by
  have h := C10_query_zero_last_prior_time stPriorPrefix 2 (by decide)
    (by decide)
  obtain ⟨⟨v, hv, hval⟩, hlab⟩ := h
  constructor
  · have hv2 : v = 150 := by
      have : (stPriorPrefix.results.map (fun r => r.labeling_times)).get? 1 =
          some 150 := by decide
      rw [this] at hv
      injection hv
      omega
    rw [← hv2]
    exact hval
  · have : (stPriorPrefix.results.map (fun r => r.labels)).take 2 = [1, 0] := by
      decide
    rw [← this]
    exact hlab

/- ### C3: n_predictor_models identifies models by string concatenation -/

/-- C3 counterexample: with no priors and the two distinct non-prior pairs
`("a", 12)` and `("a1", 2)`, both concatenate to the id "a12", so
`n_predictor_models` returns 1 + 1 = 2 while the claim's distinct-pair count
plus one is 3. -/
theorem C3_counterexample :
    n_predictor_models stCollide = 2 ∧
    (spec_nonPriorPairs stCollide.results).dedup.length + 1 = 3 := by
  decide

/-- Lists mapped through a function have the toFinset image as toFinset. -/
lemma toFinset_of_map {α β : Type} [DecidableEq α] [DecidableEq β]
    (f : α → β) (l : List α) : (l.map f).toFinset = l.toFinset.image f := by
  ext b
  simp

/-- Mapping by a function injective on the list preserves the number of
distinct elements. -/
lemma dedup_length_map_of_injOn {α β : Type} [DecidableEq α] [DecidableEq β]
    (f : α → β) (l : List α) (hf : Set.InjOn f { x | x ∈ l }) :
    (l.map f).dedup.length = l.dedup.length := by
  rw [← List.card_toFinset, ← List.card_toFinset, toFinset_of_map]
  apply Finset.card_image_of_injOn
  rw [List.coe_toFinset]
  exact hf

/-- C3 amended: when the prior rows form a contiguous leading block and no two
distinct non-prior `(classifier, training set)` pairs share the concatenated
string `classifier ++ toString trainingSet`, `n_predictor_models` equals the
number of distinct non-prior pairs plus one (the prior block counting as one
aggregate pseudo-model regardless of its size); without the injectivity
proviso the code conflates colliding pairs, as the counterexample shows. -/
theorem C3_distinct_pairs_plus_one (st : HDF5State)
    (hcontig : ∀ r ∈ st.results.dropWhile
          (fun r => r.predictor_query_strategies == "prior"),
         r.predictor_query_strategies ≠ "prior")
    (hinj : Set.InjOn (fun p : String × Int => p.1 ++ toString p.2)
            { p | p ∈ spec_nonPriorPairs st.results }) :
    n_predictor_models st = (spec_nonPriorPairs st.results).dedup.length + 1 := by
  have hnp : (n_priors st).getD 0 = spec_leadingPriorRun st.results := by
    rw [n_priors_getD_eq_count]
    exact count_prior_eq_leading st.results hcontig
  have hdrop : st.results.drop (spec_leadingPriorRun st.results) =
      st.results.dropWhile (fun r => r.predictor_query_strategies == "prior") := by
    unfold spec_leadingPriorRun
    have hsplit := List.takeWhile_append_dropWhile
      (fun r => r.predictor_query_strategies == "prior") st.results
    have hd := List.drop_left
      (st.results.takeWhile (fun r => r.predictor_query_strategies == "prior"))
      (st.results.dropWhile (fun r => r.predictor_query_strategies == "prior"))
    rw [hsplit] at hd
    exact hd
  have hfilter : spec_nonPriorPairs st.results =
      (st.results.dropWhile (fun r => r.predictor_query_strategies == "prior")).map
        (fun r => (r.predictor_classifiers, r.predictor_training_sets)) := by
    unfold spec_nonPriorPairs
    have hsplit := List.takeWhile_append_dropWhile
      (fun r => r.predictor_query_strategies == "prior") st.results
    have hnilf : (st.results.takeWhile
        (fun r => r.predictor_query_strategies == "prior")).filter
        (fun r => r.predictor_query_strategies ≠ "prior") = [] := by
      apply List.filter_eq_nil.mpr
      intro a ha
      have := List.mem_takeWhile_imp ha
      simp_all
    have hself : (st.results.dropWhile
        (fun r => r.predictor_query_strategies == "prior")).filter
        (fun r => r.predictor_query_strategies ≠ "prior") =
        st.results.dropWhile (fun r => r.predictor_query_strategies == "prior") := by
      apply List.filter_eq_self.mpr
      intro a ha
      simpa using hcontig a ha
    have key : (st.results.takeWhile (fun r => r.predictor_query_strategies == "prior")
        ++ st.results.dropWhile (fun r => r.predictor_query_strategies == "prior")).filter
        (fun r => r.predictor_query_strategies ≠ "prior") =
        st.results.dropWhile (fun r => r.predictor_query_strategies == "prior") := by
      rw [List.filter_append, hnilf, hself]
      rfl
    rw [hsplit] at key
    rw [key]
  have hmodel : n_predictor_models st =
      ((st.results.dropWhile (fun r => r.predictor_query_strategies == "prior")).map
        (fun r => r.predictor_classifiers ++ toString r.predictor_training_sets)).dedup.length
        + 1 := by
    unfold n_predictor_models
    simp only [hnp]
    rw [List.map_map]
    rw [← List.map_drop, ← List.map_drop, List.zip_map', List.map_map]
    rw [hdrop]
    rfl
  rw [hmodel, hfilter]
  have hd := dedup_length_map_of_injOn (fun p : String × Int => p.1 ++ toString p.2)
    ((st.results.dropWhile (fun r => r.predictor_query_strategies == "prior")).map
      (fun r => (r.predictor_classifiers, r.predictor_training_sets)))
    (by rw [← hfilter]; exact hinj)
  rw [← hd, List.map_map]
  rfl

/-- C3 witness: on a log with one prior row and two collision-free models
("nb" on training set 1, "svm" on training set 2), the amended statement
evaluates to 2 + 1 = 3. -/
theorem C3_distinct_pairs_plus_one_witness :
    n_predictor_models stThreeModels = 3 := by
  have hpairs : spec_nonPriorPairs stThreeModels.results =
      [("nb", (1 : Int)), ("svm", (2 : Int))] := by decide
  have hinj : Set.InjOn (fun p : String × Int => p.1 ++ toString p.2)
      { p | p ∈ spec_nonPriorPairs stThreeModels.results } := by
    intro a ha b hb hab
    rw [Set.mem_setOf_eq, hpairs] at ha hb
    simp only [List.mem_cons, List.mem_singleton, List.not_mem_nil, or_false] at ha hb
    rcases ha with rfl | rfl <;> rcases hb with rfl | rfl
    · rfl
    · exact absurd hab (by decide)
    · exact absurd hab (by decide)
    · rfl
  rw [C3_distinct_pairs_plus_one stThreeModels (by decide) hinj]
  decide

/- ### C7: feature-matrix store -/

/-- C7: evaluating `_add_as_data` at a dense store, at a sparse store, and at
a repeated store under the same hash.  The claim says a store persists the
matrix and any second store for the same hash, dense or sparse, is a no-op
that preserves the originally stored data, matching the
`BaseState._add_as_data` docstring ("Add properties from as_data to the
state"); but the code's first subscription `self.f["/data_properties"]`
raises TypeError on every call, so no store ever succeeds, no entry for any
hash can come to exist, and `/data_properties` stays absent even after
repeated stores. -/
theorem C7_store_always_typeerror :
    add_as_data stNoRows "h" [1] (some (FeatureMatrix.ndarray [[5]])) =
      (stNoRows, some Err.typeError) ∧
    add_as_data stNoRows "h" [1]
        (some (FeatureMatrix.csr [0, 1] [0] [5] (1, 1))) =
      (stNoRows, some Err.typeError) ∧
    (add_as_data (add_as_data stNoRows "h" [1]
        (some (FeatureMatrix.ndarray [[5]]))).1 "h" [1]
        (some (FeatureMatrix.ndarray [[5]]))).1.data_properties = none := by
  decide
